import Mathlib

/-!
Verification of the audit-trail reconstruction and ledger-chain rendering
engine of the chain-of-custody client
(`python_client/interactive_terminal_remote.py` and
`python_client/chain_of_custody_cli_wrapper.py`).

The Python code is shallowly embedded: JSON records become structures,
dictionary `.get` with a default becomes an `Option` projection with a
default, external library calls (`datetime.strftime`, base64-to-hex
conversion, `json.loads`) are passed in as function parameters, and the
filesystem effects of genesis resolution are tracked as an explicit
`FsState` value threaded through the model.
-/

namespace ChainOfCustody

/-- Point-in-time state of one evidence asset, as stored in the `evidence`
field of a history record (see the fields read by `get_history` and
`view_blockchain_ledger`). -/
structure EvidenceSnapshot where
  id : String
  description : String
  owner : String
  location : String
  status : String
  created_at : String
  updated_at : String
deriving DecidableEq, Repr

/-- A protobuf-style timestamp dictionary `{seconds, nanos}`, the struct
form handled by `get_sort_key` (line 393-397). -/
structure Timestamp where
  seconds : Int
  nanos : Nat
deriving DecidableEq, Repr

/-- One raw history record returned by `GetEvidenceHistory`: transaction id,
timestamp, delete flag, and the optional evidence snapshot (the source reads
it with a `.get` defaulting to an empty dictionary; absence is `none`). -/
structure HistoryEntry where
  txId : String
  timestamp : Timestamp
  isDelete : Bool
  evidence : Option EvidenceSnapshot
deriving DecidableEq, Repr

/-- The four semantic action labels assigned by the classifier. -/
inductive Action where
  | CREATED
  | UPDATED
  | TRANSFERRED
  | DELETED
deriving DecidableEq, Repr

/-- Model of `evidence.get("owner", "")`: the owner of an optional snapshot,
with the empty-string default used for a missing snapshot or field. -/
def snapOwner (ev : Option EvidenceSnapshot) : String :=
  (ev.map EvidenceSnapshot.owner).getD ""

/-- Model of `evidence.get("created_at", "")`. -/
def snapCreatedAt (ev : Option EvidenceSnapshot) : String :=
  (ev.map EvidenceSnapshot.created_at).getD ""

/-- Model of `evidence.get("updated_at", "")`. -/
def snapUpdatedAt (ev : Option EvidenceSnapshot) : String :=
  (ev.map EvidenceSnapshot.updated_at).getD ""

/-- The action-determination block of `view_blockchain_ledger`
(lines 443-457): `DELETED` when the delete flag is set, `CREATED` when
`created_at` equals `updated_at` on the snapshot, otherwise `TRANSFERRED` exactly
when a previous owner was recorded (`prev_owner is not None`) and differs
from the current owner, else `UPDATED`. -/
def classifyTx (is_delete : Bool) (evidence : Option EvidenceSnapshot)
    (prev_owner : Option String) : Action :=
  if is_delete then Action.DELETED
  else if snapCreatedAt evidence = snapUpdatedAt evidence then Action.CREATED
  else if (match prev_owner with
           | some po => snapOwner evidence != po
           | none => false) then Action.TRANSFERRED
  else Action.UPDATED

/-- The action-determination block of `get_history` (lines 291-313) for the
record at index `i` of the newest-first history `data`: identical rule, with
the previous owner read from the next (older) record
(the owner of `data[i + 1]`, defaulted as above) when `i + 1 < len(data)`. -/
def historyActionOf (data : List HistoryEntry) (i : Nat) (item : HistoryEntry) : Action :=
  if item.isDelete then Action.DELETED
  else if snapCreatedAt item.evidence = snapUpdatedAt item.evidence then Action.CREATED
  else if (match (data[i + 1]?).map (fun nxt => snapOwner nxt.evidence) with
           | some po => snapOwner item.evidence != po
           | none => false) then Action.TRANSFERRED
  else Action.UPDATED

/-- The sequence of actions `get_history` prints for a newest-first history,
one per record, in record order (the `for i, item in enumerate(data)` loop). -/
def historyActions (data : List HistoryEntry) : List Action :=
  data.enum.map fun p => historyActionOf data p.1 p.2

/-- The classifier of the ledger view expressed over an optional same-asset
immediate chronological predecessor record: the previous owner handed to
`classifyTx` is the owner read from the predecessor with empty-string
defaults when the predecessor exists, and `None` otherwise (lines 386-389
compute exactly this before storing it on the record). -/
def classifyEntry (e : HistoryEntry) (p : Option HistoryEntry) : Action :=
  classifyTx e.isDelete e.evidence (p.map fun pe => snapOwner pe.evidence)

/-- A history record after the tagging pass of `view_blockchain_ledger`
(lines 383-390): the record itself plus the two fields the loop stores on
it, `asset_id` and `prev_owner`. -/
structure TaggedTx where
  entry : HistoryEntry
  asset_id : String
  prev_owner : Option String
deriving DecidableEq, Repr

/-- The stored previous owner for the record at index `idx` of a
newest-first history: the owner of the next (older) record when one
exists, read with empty-string defaults, else `None` (lines 386-389). -/
def prevOwnerAt (history : List HistoryEntry) (idx : Nat) : Option String :=
  (history[idx + 1]?).map fun nxt => snapOwner nxt.evidence

/-- The tagging pass over the newest-first history of one asset (the inner
`for idx, record in enumerate(history)` loop, lines 383-390): the records
in their delivered order, each tagged with the asset id and previous owner. -/
def tagHistory (ev_id : String) (history : List HistoryEntry) : List TaggedTx :=
  history.enum.map fun p =>
    { entry := p.2, asset_id := ev_id, prev_owner := prevOwnerAt history p.1 }

/-- The classification `view_blockchain_ledger` performs on a tagged record
during rendering (lines 439-457): `classifyTx` applied to the delete flag,
evidence, and stored `prev_owner` of the record. -/
def classifyTagged (t : TaggedTx) : Action :=
  classifyTx t.entry.isDelete t.entry.evidence t.prev_owner

/-- One iteration of the per-asset fetch loop of `view_blockchain_ledger`
(lines 378-390), given the asset id and the result of the
`GetEvidenceHistory` query (`none` models the `None` returned on a failed
query). The pair is (records appended to `all_txs`,
warnings recorded for this asset). An empty id is skipped
(`if not ev_id: continue`) and a falsy history (`None` or the empty list)
is skipped by `if history:`; the failure branch executes no statement at
all — in particular the source records or prints no warning on a failed
fetch, so the warning component is empty in every branch. -/
def perAsset (p : String × Option (List HistoryEntry)) : List TaggedTx × List String :=
  if p.1 = "" then ([], [])
  else
    match p.2 with
    | none => ([], [])
    | some [] => ([], [])
    | some history => (tagHistory p.1 history, [])

/-- The `all_txs` list built by the fetch loop before sorting: the
concatenation of the tagged histories, assets in the order of the id list
returned by `GetAllEvidenceIDs`, each history in its delivered
newest-first order. -/
def collectTxs (fetches : List (String × Option (List HistoryEntry))) : List TaggedTx :=
  fetches.flatMap fun p => (perAsset p).1

/-- The per-asset warnings the fetch loop accumulates (none exist in the
source: a failed fetch is skipped silently). -/
def collectWarnings (fetches : List (String × Option (List HistoryEntry))) : List String :=
  fetches.flatMap fun p => (perAsset p).2

/-- The exact seconds-plus-nanoseconds value of a struct timestamp, the
integer `seconds * 10 ^ 9 + nanos`. `get_sort_key` (lines 393-397)
computes seconds plus nanos divided by 1e9 in binary64 floating point;
the bit-accurate key is `floatTsKey` below. This exact key orders a pair
of timestamps identically to the float key except where binary64
collapses a nanosecond difference below half an ulp of the key (about
119 ns at epoch-scale seconds): such pairs are float-equal but
exact-unequal. Claims that depend only on stability under equal keys,
permutation, or membership are insensitive to that difference and are
settled against the exact-key sort below; global non-decrease in the
exact measure is sensitive to it and is settled against the binary64 key
(see `mergeLedgerF`). -/
def tsKey (ts : Timestamp) : Int :=
  ts.seconds * 1000000000 + ts.nanos

/-- The sort key of a collected transaction (`get_sort_key(tx)`). -/
def sortKey (t : TaggedTx) : Int :=
  tsKey t.entry.timestamp

/-- The key comparison underlying `all_txs.sort(key=get_sort_key)`. -/
def txLe (a b : TaggedTx) : Prop :=
  sortKey a ≤ sortKey b

instance : DecidableRel txLe := fun a b => inferInstanceAs (Decidable (sortKey a ≤ sortKey b))

instance : IsTotal TaggedTx txLe := ⟨fun a b => le_total (sortKey a) (sortKey b)⟩

instance : IsTrans TaggedTx txLe := ⟨fun _ _ _ h h' => le_trans h h'⟩

/-- The in-place sort of `all_txs` by `get_sort_key` (line 399). The
`list.sort` method of Python is a stable sort by the key; a stable sort is
uniquely determined by the key ordering and the input order, so it is
modelled by the stable `List.insertionSort` under the key comparison. -/
def pySort (l : List TaggedTx) : List TaggedTx :=
  l.insertionSort txLe

/-- The merged global ledger sequence under the exact key: the fetch loop
followed by the stable sort (lines 375-399); see `mergeLedgerF` for the
bit-accurate binary64 key. -/
def mergeLedger (fetches : List (String × Option (List HistoryEntry))) : List TaggedTx :=
  pySort (collectTxs fetches)

/-- Whether the rational `num / den` is at least `2 ^ (e + 52)`, i.e.
whether its leading binary digit is at or above position `e + 52`: the
test used to locate the binade of a value when rounding it to a binary64
significand of 53 bits. -/
def binadeLe (num den : Nat) (e : Int) : Bool :=
  if 0 ≤ e + 52 then decide (den * 2 ^ (e + 52).toNat ≤ num)
  else decide (den ≤ num * 2 ^ (-(e + 52)).toNat)

/-- IEEE-754 binary64 rounding (round to nearest, ties to even) of the
nonnegative rational `num / den`, returned as an exact
(numerator, denominator) pair. The binade exponent is located by scanning
the range from 150 down to -150, which covers every magnitude arising in
the sort-key computation (from one nanosecond, about `2 ^ (-30)`, up to
any seconds value below `2 ^ 100`); zero, and a nonzero value below the
scanned range, is returned unrounded. Overflow and subnormals cannot
arise in that range. -/
def roundB64Pos (num den : Nat) : Nat × Nat :=
  match (((List.range 301).map fun k => (150 : Int) - (k : Int)).find?
      fun e => binadeLe num den e) with
  | none => (num, den)
  | some e =>
      let N : Nat := if 0 ≤ e then num else num * 2 ^ (-e).toNat
      let D : Nat := if 0 ≤ e then den * 2 ^ e.toNat else den
      let q : Nat := N / D
      let r : Nat := N % D
      let m : Nat := q + (if D < 2 * r then 1 else if 2 * r < D then 0 else q % 2)
      if 0 ≤ e then (m * 2 ^ e.toNat, 1) else (m, 2 ^ (-e).toNat)

/-- binary64 rounding of a signed exact rational `num / den`; rounding to
nearest with ties to even is symmetric in sign. -/
def roundB64 (num : Int) (den : Nat) : Int × Nat :=
  let p := roundB64Pos num.natAbs den
  (if 0 ≤ num then (p.1 : Int) else -(p.1 : Int), p.2)

/-- Comparison of two exact signed rational pairs with positive
denominators, by cross multiplication. -/
def ratPairLe (a b : Int × Nat) : Prop :=
  a.1 * (b.2 : Int) ≤ b.1 * (a.2 : Int)

/-- The exact value of the double `get_sort_key` computes for a struct
timestamp: Python evaluates seconds + nanos / 1e9 in binary64 — the int
nanos is converted to double, divided by the exactly representable double
1e9 with one rounding, the int seconds is converted to double, and the
sum is rounded once more. Every intermediate is carried as an exact
rational pair. -/
def floatTsKey (ts : Timestamp) : Int × Nat :=
  let fn := roundB64 (ts.nanos : Int) 1
  let fdiv := roundB64 fn.1 (fn.2 * 1000000000)
  let fs := roundB64 ts.seconds 1
  roundB64 (fs.1 * (fdiv.2 : Int) + fdiv.1 * (fs.2 : Int)) (fs.2 * fdiv.2)

/-- The binary64 sort key of a collected transaction. -/
def sortKeyF (t : TaggedTx) : Int × Nat :=
  floatTsKey t.entry.timestamp

/-- The key comparison of the sort at line 399 under the binary64 key. -/
def txLeF (a b : TaggedTx) : Prop :=
  ratPairLe (sortKeyF a) (sortKeyF b)

theorem roundB64Pos_den_pos (num den : Nat) (h : 0 < den) :
    0 < (roundB64Pos num den).2 := by
  unfold roundB64Pos
  split
  · exact h
  · split
    · exact Nat.one_pos
    · exact pow_pos (by decide) _

theorem roundB64_den_pos (num : Int) (den : Nat) (h : 0 < den) :
    0 < (roundB64 num den).2 := by
  unfold roundB64
  exact roundB64Pos_den_pos _ _ h

theorem floatTsKey_den_pos (ts : Timestamp) : 0 < (floatTsKey ts).2 := by
  unfold floatTsKey
  exact roundB64_den_pos _ _ (mul_pos (roundB64_den_pos _ _ Nat.one_pos)
    (roundB64_den_pos _ _ (mul_pos (roundB64_den_pos _ _ Nat.one_pos) (by decide))))

instance : DecidableRel txLeF := fun a b =>
  inferInstanceAs
    (Decidable ((sortKeyF a).1 * ((sortKeyF b).2 : Int) ≤ (sortKeyF b).1 * ((sortKeyF a).2 : Int)))

instance : IsTotal TaggedTx txLeF :=
  ⟨fun a b =>
    Int.le_total ((sortKeyF a).1 * ((sortKeyF b).2 : Int))
      ((sortKeyF b).1 * ((sortKeyF a).2 : Int))⟩

instance : IsTrans TaggedTx txLeF := by
  refine ⟨fun a b c hab hbc => ?_⟩
  have ha2 : (0 : Int) < ((sortKeyF a).2 : Int) :=
    Int.ofNat_pos.mpr (floatTsKey_den_pos a.entry.timestamp)
  have hb2 : (0 : Int) < ((sortKeyF b).2 : Int) :=
    Int.ofNat_pos.mpr (floatTsKey_den_pos b.entry.timestamp)
  have hc2 : (0 : Int) < ((sortKeyF c).2 : Int) :=
    Int.ofNat_pos.mpr (floatTsKey_den_pos c.entry.timestamp)
  have hab2 : (sortKeyF a).1 * ((sortKeyF b).2 : Int) ≤ (sortKeyF b).1 * ((sortKeyF a).2 : Int) :=
    hab
  have hbc2 : (sortKeyF b).1 * ((sortKeyF c).2 : Int) ≤ (sortKeyF c).1 * ((sortKeyF b).2 : Int) :=
    hbc
  have h4 : (sortKeyF a).1 * ((sortKeyF b).2 : Int) * ((sortKeyF c).2 : Int) ≤
      (sortKeyF c).1 * ((sortKeyF b).2 : Int) * ((sortKeyF a).2 : Int) := by
    calc (sortKeyF a).1 * ((sortKeyF b).2 : Int) * ((sortKeyF c).2 : Int)
        ≤ (sortKeyF b).1 * ((sortKeyF a).2 : Int) * ((sortKeyF c).2 : Int) :=
          mul_le_mul_of_nonneg_right hab2 (le_of_lt hc2)
      _ = (sortKeyF b).1 * ((sortKeyF c).2 : Int) * ((sortKeyF a).2 : Int) := by ring
      _ ≤ (sortKeyF c).1 * ((sortKeyF b).2 : Int) * ((sortKeyF a).2 : Int) :=
          mul_le_mul_of_nonneg_right hbc2 (le_of_lt ha2)
  have h5 : (sortKeyF a).1 * ((sortKeyF c).2 : Int) * ((sortKeyF b).2 : Int) ≤
      (sortKeyF c).1 * ((sortKeyF a).2 : Int) * ((sortKeyF b).2 : Int) := by
    calc (sortKeyF a).1 * ((sortKeyF c).2 : Int) * ((sortKeyF b).2 : Int)
        = (sortKeyF a).1 * ((sortKeyF b).2 : Int) * ((sortKeyF c).2 : Int) := by ring
      _ ≤ (sortKeyF c).1 * ((sortKeyF b).2 : Int) * ((sortKeyF a).2 : Int) := h4
      _ = (sortKeyF c).1 * ((sortKeyF a).2 : Int) * ((sortKeyF b).2 : Int) := by ring
  exact le_of_mul_le_mul_right h5 hb2

/-- The stable sort of line 399 under the binary64 key. -/
def pySortF (l : List TaggedTx) : List TaggedTx :=
  l.insertionSort txLeF

/-- The merged global ledger sequence under the bit-accurate binary64 sort
key: the faithful model of lines 375-399 including the float rounding of
`get_sort_key`. It coincides with `mergeLedger` above except on inputs
where the double collapses a sub-half-ulp nanosecond difference. -/
def mergeLedgerF (fetches : List (String × Option (List HistoryEntry))) : List TaggedTx :=
  pySortF (collectTxs fetches)

/-- The genesis anchor dictionary returned by `get_genesis_block`:
`{"timestamp": ..., "hash": ...}`. -/
structure GenesisAnchor where
  timestamp : String
  hash : String
deriving DecidableEq, Repr

/-- The anchor-hash substitution of `view_blockchain_ledger` (lines
409-413): the hash field of the resolved genesis dictionary, replaced by
the 56-character zero placeholder when it equals `"N/A"`. -/
def ledgerAnchorHash (genesis_info : GenesisAnchor) : String :=
  let genesis_hash := genesis_info.hash
  if genesis_hash = "N/A" then String.mk (List.replicate 56 '0') else genesis_hash

/-- One rendered entry of the ledger view: the transaction plus the
`Prev Hash` printed for it (lines 464-489). -/
structure ChainEntry where
  tx : TaggedTx
  prevLinkHash : String
deriving DecidableEq, Repr

/-- The rendering loop of `view_blockchain_ledger` (lines 424-489):
`prev_hash` starts at the anchor hash, each transaction is printed with
the current `prev_hash`, and `prev_hash` is then set to the id of that
transaction. -/
def renderChain (prev_hash : String) : List TaggedTx → List ChainEntry
  | [] => []
  | t :: ts => { tx := t, prevLinkHash := prev_hash } :: renderChain t.entry.txId ts

/-- The raw timestamp extracted from the decoded genesis block: either a
protobuf timestamp dictionary or an ISO-8601 string (lines 196-201). -/
inductive TsRaw where
  | strct (seconds : Int)
  | iso (s : String)
deriving DecidableEq, Repr

/-- The fields `get_genesis_block` reads from the decoded block JSON:
the channel-header timestamp (`none` models any `KeyError`/`IndexError`/
`ValueError` during its extraction, lines 192-203) and the base64
`header.data_hash` (`none` models a missing field, which the source
defaults to the empty string, lines 206-207). -/
structure BlockData where
  tsField : Option TsRaw
  dataHash : Option String
deriving DecidableEq, Repr

/-- The outcomes of the external steps of `get_genesis_block`: whether the
`peer channel fetch` call leaves `genesis.block` on disk, whether
`configtxlator` exists, whether the decode command succeeds, whether it
produces `genesis.json`, and the result of `json.load` on that file
(`none` models a `JSONDecodeError`). -/
structure GenesisEnv where
  fetchProducesBlock : Bool
  toolExists : Bool
  decodeSucceeds : Bool
  decodeProducesOutput : Bool
  parseResult : Option BlockData
deriving DecidableEq, Repr

/-- Whether the two temporary files of genesis resolution exist on disk. -/
structure FsState where
  blockExists : Bool
  jsonExists : Bool
deriving DecidableEq, Repr

/-- The timestamp-extraction block of `get_genesis_block` (lines 192-203).
`fmt` abstracts the `datetime.fromtimestamp` plus `strftime` formatting of
an integer-seconds timestamp; an ISO string has its `T` replaced by a
space and is truncated at the first dot; any extraction failure yields
`"Unknown Format"`. -/
def extractTimestamp (fmt : Int → String) : Option TsRaw → String
  | none => "Unknown Format"
  | some (TsRaw.strct seconds) => fmt seconds
  | some (TsRaw.iso s) => (((s.replace "T" " ").splitOn ".").headD "")

/-- Model of `get_genesis_block` (lines 131-226), returning the anchor
dictionary together with the on-disk state of the two temporary files at
return. `fmt` abstracts the `datetime` formatting of a struct timestamp
and `b64hex` abstracts the base64-decode-then-hexlify conversion of the
data hash (`none` models the exception swallowed by the bare `except`,
which falls back to the raw base64 text). The function deletes any stale
copies of the two files first; `peer channel fetch` writes `genesis.block`
when it succeeds; after the decode attempt `genesis.block` is removed, but
note that the missing-tool early return happens before that removal. -/
def get_genesis_block (fmt : Int → String) (b64hex : String → Option String)
    (env : GenesisEnv) : GenesisAnchor × FsState :=
  if ¬ env.fetchProducesBlock then
    ({ timestamp := "Fetch Failed", hash := "N/A" },
     { blockExists := false, jsonExists := false })
  else if ¬ env.toolExists then
    ({ timestamp := "Tool Missing", hash := "N/A" },
     { blockExists := true, jsonExists := false })
  else if ¬ env.decodeSucceeds then
    ({ timestamp := "Decode Failed", hash := "N/A" },
     { blockExists := false, jsonExists := false })
  else if ¬ env.decodeProducesOutput then
    ({ timestamp := "No Output", hash := "N/A" },
     { blockExists := false, jsonExists := false })
  else
    match env.parseResult with
    | none =>
        ({ timestamp := "Parse Error", hash := "N/A" },
         { blockExists := false, jsonExists := false })
    | some block_data =>
        let timestamp := extractTimestamp fmt block_data.tsField
        let data_hash_b64 := block_data.dataHash.getD ""
        let data_hash_hex :=
          match b64hex data_hash_b64 with
          | some h => h
          | none => data_hash_b64
        ({ timestamp := timestamp, hash := data_hash_hex },
         { blockExists := false, jsonExists := false })

/-- The outcome of `subprocess.run(..., check=True)`: normal completion
with captured stdout and stderr, or a `CalledProcessError` carrying the
message `e.stderr or str(e)`. -/
inductive CmdOutcome where
  | ok (stdout stderr : String)
  | exn (err_msg : String)
deriving DecidableEq, Repr

/-- The dictionary shapes `_run_peer_command` can return. -/
inductive RunResult (J : Type) where
  | jsonOk (v : J)
  | rawOk (s : String)
  | plainOk (stdout stderr : String)
  | failure (err : String)
deriving DecidableEq, Repr

/-- The `"success"` field of a `_run_peer_command` result. -/
def RunResult.success {J : Type} : RunResult J → Bool
  | RunResult.jsonOk _ => true
  | RunResult.rawOk _ => true
  | RunResult.plainOk _ _ => true
  | RunResult.failure _ => false

/-- Whether the result carries the `"raw": True` marker. -/
def RunResult.isRaw {J : Type} : RunResult J → Bool
  | RunResult.rawOk _ => true
  | _ => false

/-- Model of `_run_peer_command` of `interactive_terminal_remote.py`
(lines 92-107). `loads` abstracts `json.loads` (`none` models
`JSONDecodeError`; note that `json.loads` raises on the empty string). On
success with `parse_json` set and a non-empty stdout, a parse failure
falls back to a success dictionary carrying the raw stdout and the raw
marker. On a `CalledProcessError`, an error message containing
`"access denied"` is replaced by a fixed diagnostic. -/
def run_peer_command {J : Type} (parse_json : Bool) (loads : String → Option J)
    (outcome : CmdOutcome) : RunResult J :=
  match outcome with
  | CmdOutcome.ok stdout stderr =>
      if parse_json ∧ stdout ≠ "" then
        match loads stdout with
        | some v => RunResult.jsonOk v
        | none => RunResult.rawOk stdout
      else RunResult.plainOk stdout stderr
  | CmdOutcome.exn err_msg =>
      if List.IsInfix ("access denied".toList) err_msg.toList then
        RunResult.failure "ACCESS DENIED: User does not have permission."
      else RunResult.failure err_msg

/-- Model of `_run_peer_command` of `chain_of_custody_cli_wrapper.py`
(lines 45-66): identical except that the error message is passed through
unchanged. -/
def wrapper_run_peer_command {J : Type} (parse_json : Bool) (loads : String → Option J)
    (outcome : CmdOutcome) : RunResult J :=
  match outcome with
  | CmdOutcome.ok stdout stderr =>
      if parse_json ∧ stdout ≠ "" then
        match loads stdout with
        | some v => RunResult.jsonOk v
        | none => RunResult.rawOk stdout
      else RunResult.plainOk stdout stderr
  | CmdOutcome.exn err_msg => RunResult.failure err_msg

/-! ### Helper lemmas -/

theorem renderChain_map_tx (prev_hash : String) (l : List TaggedTx) :
    (renderChain prev_hash l).map ChainEntry.tx = l := by
  induction l generalizing prev_hash with
  | nil => rfl
  | cons t ts ih => simp [renderChain, ih]

theorem perAsset_snd (p : String × Option (List HistoryEntry)) : (perAsset p).2 = [] := by
  rcases p with ⟨a, ho⟩
  rcases ho with _ | h
  · simp [perAsset]
  · rcases h with _ | ⟨x, xs⟩
    · simp [perAsset]
    · simp only [perAsset]
      split <;> rfl

theorem perAsset_none (p : String × Option (List HistoryEntry)) (h : p.2 = none) :
    (perAsset p).1 = [] := by
  rcases p with ⟨a, ho⟩
  cases h
  simp [perAsset]

theorem perAsset_some (a : String) (h : List HistoryEntry) (ha : a ≠ "") :
    (perAsset (a, some h)).1 = tagHistory a h := by
  cases h with
  | nil => simp [perAsset, ha, tagHistory]
  | cons x xs => simp [perAsset, ha]

theorem renderChain_link_at :
    ∀ (l : List TaggedTx) (anchor : String) (i : Nat), i + 1 < l.length →
      Option.map ChainEntry.prevLinkHash ((renderChain anchor l)[i + 1]?) =
        Option.map (fun t : TaggedTx => t.entry.txId) (l[i]?) := by
  intro l
  induction l with
  | nil =>
    intro anchor i hi
    simp at hi
  | cons t ts ih =>
    intro anchor i hi
    cases i with
    | zero =>
      cases ts with
      | nil => simp at hi
      | cons u us => simp [renderChain]
    | succ j =>
      have hj : j + 1 < ts.length := by simpa using hi
      simpa [renderChain] using ih t.entry.txId j hj

theorem historyActions_eq_tag_map (ev_id : String) (data : List HistoryEntry) :
    historyActions data = (tagHistory ev_id data).map classifyTagged := by
  simp only [historyActions, tagHistory, List.map_map]
  apply List.map_congr_left
  intro p _
  simp only [Function.comp_apply, classifyTagged, classifyTx, historyActionOf, prevOwnerAt]

theorem collectWarnings_eq_nil (fetches : List (String × Option (List HistoryEntry))) :
    collectWarnings fetches = [] := by
  induction fetches with
  | nil => rfl
  | cons p rest ih =>
    rw [collectWarnings, List.flatMap_cons, perAsset_snd, List.nil_append]
    rw [collectWarnings] at ih
    exact ih

/-- Records with identical struct timestamps used to exhibit the actual
tie-break order: the id query lists asset `"B"` before `"A"`, and asset
`"A"` has two records delivered newest first (`"t2"` then the older
`"t1"`). -/
def ebC2 : HistoryEntry :=
  ⟨"tb", ⟨10, 0⟩, false, some ⟨"B", "d", "bo", "l", "st", "c", "c"⟩⟩

def e2C2 : HistoryEntry :=
  ⟨"t2", ⟨10, 0⟩, false, some ⟨"A", "d", "o2", "l", "st", "c", "u"⟩⟩

def e1C2 : HistoryEntry :=
  ⟨"t1", ⟨10, 0⟩, false, some ⟨"A", "d", "o1", "l", "st", "c", "c"⟩⟩

def fetchesC2 : List (String × Option (List HistoryEntry)) :=
  [("B", some [ebC2]), ("A", some [e2C2, e1C2])]

/-- A history record for the partial-merge scenario: asset `"B"` fetches
successfully while asset `"A"` does not. -/
def ebC7 : HistoryEntry :=
  ⟨"tb7", ⟨20, 0⟩, false, some ⟨"B", "d", "bo", "l", "st", "c", "c"⟩⟩

def fetchesC7 : List (String × Option (List HistoryEntry)) :=
  [("A", none), ("B", some [ebC7])]

/-- Two records of one asset committed within the same second, 100
nanoseconds apart, at epoch-scale seconds where half an ulp of the
binary64 sort key is about 119 nanoseconds: both keys round to exactly
1700000000.0. The history is delivered newest first, so the later record
precedes the earlier one before the sort. -/
def eLateC3 : HistoryEntry :=
  ⟨"t2", ⟨1700000000, 100⟩, false, some ⟨"A", "d", "o", "l", "st", "c", "c"⟩⟩

def eEarlyC3 : HistoryEntry :=
  ⟨"t1", ⟨1700000000, 0⟩, false, some ⟨"A", "d", "o", "l", "st", "c", "c"⟩⟩

def fetchesC3 : List (String × Option (List HistoryEntry)) :=
  [("A", some [eLateC3, eEarlyC3])]

/-! ### Claims -/

/-- C1: for every history entry `e` and optional same-asset immediate
chronological predecessor `p` (carrying a snapshot where the rule reads
one), the classifier returns `DELETED` if `e.isDelete`; else `CREATED` if
`created_at` equals `updated_at` on the snapshot — regardless of `p` and of
any owner difference, so this rule takes precedence over the owner
comparison and a recreated asset is never classified as a transfer; else
`TRANSFERRED` when `p` exists and the owners differ; else `UPDATED`.
(The case of a predecessor that carries no snapshot is claim C10.) -/
theorem classifier_rule (e : HistoryEntry) (p : Option HistoryEntry) :
    (e.isDelete = true → classifyEntry e p = Action.DELETED)
    ∧ (∀ s, e.isDelete = false → e.evidence = some s →
        s.created_at = s.updated_at → classifyEntry e p = Action.CREATED)
    ∧ (∀ s pe ps, e.isDelete = false → e.evidence = some s →
        s.created_at ≠ s.updated_at → p = some pe → pe.evidence = some ps →
        s.owner ≠ ps.owner → classifyEntry e p = Action.TRANSFERRED)
    ∧ (∀ s, e.isDelete = false → e.evidence = some s →
        s.created_at ≠ s.updated_at →
        (p = none ∨ ∃ pe ps, p = some pe ∧ pe.evidence = some ps ∧ s.owner = ps.owner) →
        classifyEntry e p = Action.UPDATED) := by
  refine ⟨?_, ?_, ?_, ?_⟩
  · intro h
    simp [classifyEntry, classifyTx, h]
  · intro s h hev heq
    simp [classifyEntry, classifyTx, h, hev, snapCreatedAt, snapUpdatedAt, heq]
  · intro s pe ps h hev hne hp hpe hown
    subst hp
    simp [classifyEntry, classifyTx, h, hev, hpe, snapCreatedAt, snapUpdatedAt, snapOwner,
      hne, hown]
  · intro s h hev hne hcase
    rcases hcase with hnone | ⟨pe, ps, hp, hpe, hown⟩
    · subst hnone
      simp [classifyEntry, classifyTx, h, hev, snapCreatedAt, snapUpdatedAt, hne]
    · subst hp
      simp [classifyEntry, classifyTx, h, hev, hpe, snapCreatedAt, snapUpdatedAt, snapOwner,
        hne, hown]

/-- Witness for C1: each of the four rules applied at a concrete input. -/
theorem classifier_rule_witness :
    classifyEntry ⟨"t1", ⟨10, 0⟩, true, none⟩ none = Action.DELETED
    ∧ classifyEntry ⟨"t2", ⟨10, 0⟩, false, some ⟨"a", "d", "o", "l", "st", "c", "c"⟩⟩
        (some ⟨"t0", ⟨9, 0⟩, false, some ⟨"a", "d", "oz", "l", "st", "c", "u"⟩⟩) = Action.CREATED
    ∧ classifyEntry ⟨"t3", ⟨10, 0⟩, false, some ⟨"a", "d", "o1", "l", "st", "c", "u"⟩⟩
        (some ⟨"t0", ⟨9, 0⟩, false, some ⟨"a", "d", "o2", "l", "st", "c", "c"⟩⟩) =
        Action.TRANSFERRED
    ∧ classifyEntry ⟨"t4", ⟨10, 0⟩, false, some ⟨"a", "d", "o", "l", "st", "c", "u"⟩⟩ none =
        Action.UPDATED :=
  ⟨(classifier_rule _ _).1 rfl,
   (classifier_rule _ _).2.1 _ rfl rfl rfl,
   (classifier_rule _ _).2.2.1 _ _ _ rfl rfl (by decide) rfl rfl (by decide),
   (classifier_rule _ _).2.2.2 _ rfl rfl (by decide) (Or.inl rfl)⟩

/-- C9: on the same newest-first record list, the single-asset history view
(`get_history`) assigns to each record exactly the action the full-ledger
pipeline assigns to the same record with the same same-asset predecessor
(the tagging pass followed by `classifyTx`): the two pipelines implement
the same classification rule. -/
theorem history_matches_ledger_classifier (ev_id : String) (data : List HistoryEntry) :
    historyActions data = (tagHistory ev_id data).map classifyTagged :=
  historyActions_eq_tag_map ev_id data

/-- C10: a non-delete entry whose `created_at` differs from `updated_at`
and whose immediate same-asset predecessor is a `DELETED` record (which
carries no snapshot) is compared against the empty-string owner default:
both pipelines classify it `TRANSFERRED` exactly when its owner is
non-empty, and `UPDATED` only when its owner is the empty string. -/
theorem delete_predecessor_compares_empty_owner (a : String) (e p : HistoryEntry)
    (rest : List HistoryEntry) (s : EvidenceSnapshot)
    (hd : e.isDelete = false) (hev : e.evidence = some s)
    (hcu : s.created_at ≠ s.updated_at)
    (_hpd : p.isDelete = true) (hpe : p.evidence = none) :
    ((tagHistory a (e :: p :: rest)).map classifyTagged).head? =
      some (if s.owner = "" then Action.UPDATED else Action.TRANSFERRED)
    ∧ (historyActions (e :: p :: rest)).head? =
      some (if s.owner = "" then Action.UPDATED else Action.TRANSFERRED) := by
  rw [← historyActions_eq_tag_map a (e :: p :: rest), and_self]
  by_cases ho : s.owner = ""
  · simp [historyActions, historyActionOf, hd, hev, hcu, hpe, snapCreatedAt, snapUpdatedAt,
      snapOwner, ho]
  · simp [historyActions, historyActionOf, hd, hev, hcu, hpe, snapCreatedAt, snapUpdatedAt,
      snapOwner, ho]

/-- Witness for C10: a concrete recreated-style record whose predecessor is
a delete record; its non-empty owner makes it `TRANSFERRED`. -/
theorem delete_predecessor_compares_empty_owner_witness :
    ((tagHistory "A" (⟨"t1", ⟨10, 0⟩, false, some ⟨"a", "d", "x", "l", "st", "c", "u"⟩⟩ ::
        ⟨"t0", ⟨9, 0⟩, true, none⟩ :: [])).map classifyTagged).head? =
      some (if ("x" : String) = "" then Action.UPDATED else Action.TRANSFERRED)
    ∧ (historyActions (⟨"t1", ⟨10, 0⟩, false, some ⟨"a", "d", "x", "l", "st", "c", "u"⟩⟩ ::
        ⟨"t0", ⟨9, 0⟩, true, none⟩ :: [])).head? =
      some (if ("x" : String) = "" then Action.UPDATED else Action.TRANSFERRED) :=
  delete_predecessor_compares_empty_owner "A"
    ⟨"t1", ⟨10, 0⟩, false, some ⟨"a", "d", "x", "l", "st", "c", "u"⟩⟩
    ⟨"t0", ⟨9, 0⟩, true, none⟩ [] ⟨"a", "d", "x", "l", "st", "c", "u"⟩
    rfl rfl (by decide) rfl rfl

/-- C3 counterexample: the two records of `fetchesC3` are 100 nanoseconds
apart within one second, below half an ulp of the binary64 sort key at
seconds 1700000000, so both keys round to the same double (second
conjunct: the exact rational values of the two doubles coincide). The
stable sort therefore keeps the newest-first fetch order, and the merged
output is [seconds·10⁹ + 100, seconds·10⁹ + 0] in exact
seconds-plus-nanoseconds (`tsKey`) — strictly decreasing at the adjacent
pair, so the merged sequence is NOT non-decreasing by seconds plus
nanoseconds (third conjunct). -/
theorem merged_decreasing_counterexample :
    (mergeLedgerF fetchesC3).map (fun t => tsKey t.entry.timestamp) =
      [1700000000000000100, 1700000000000000000]
    ∧ floatTsKey ⟨1700000000, 100⟩ = floatTsKey ⟨1700000000, 0⟩
    ∧ ¬ (mergeLedgerF fetchesC3).Pairwise
        (fun a b => tsKey a.entry.timestamp ≤ tsKey b.entry.timestamp) := by
  refine ⟨by decide, by decide, by decide⟩

/-- C3 amended: the merged global sequence of the ledger view is
non-decreasing by the sort key the program actually computes — the
binary64 (double) value of seconds plus nanos divided by 1e9 — for struct
timestamps. It need not be non-decreasing in exact seconds plus
nanoseconds: when a nanosecond difference is below half an ulp of the
key, the two keys round to the same double and the stable sort keeps the
newest-first fetch order (see the counterexample). -/
theorem merged_nondecreasing_float (fetches : List (String × Option (List HistoryEntry))) :
    (mergeLedgerF fetches).Pairwise fun a b => ratPairLe (sortKeyF a) (sortKeyF b) :=
  List.sorted_insertionSort txLeF (collectTxs fetches)

/-- C4: for every merged sequence and anchor hash, the rendered chain gives
the first entry `prevLinkHash` equal to the anchor hash, gives every entry
at position `i + 1` the transaction id of the entry at position `i`, and
preserves the merged entries themselves. -/
theorem render_chain_assigns_links (anchor : String) (l : List TaggedTx) :
    (l ≠ [] → Option.map ChainEntry.prevLinkHash (renderChain anchor l).head? = some anchor)
    ∧ (∀ i : Nat, i + 1 < l.length →
        Option.map ChainEntry.prevLinkHash ((renderChain anchor l)[i + 1]?) =
          Option.map (fun t : TaggedTx => t.entry.txId) (l[i]?))
    ∧ (renderChain anchor l).map ChainEntry.tx = l := by
  refine ⟨?_, fun i hi => renderChain_link_at l anchor i hi, renderChain_map_tx anchor l⟩
  intro h
  cases l with
  | nil => exact absurd rfl h
  | cons t ts => rfl

/-- Witness for C4: a two-entry chain rendered from the anchor hash `"g"`. -/
theorem render_chain_assigns_links_witness :
    Option.map ChainEntry.prevLinkHash
        (renderChain "g" [⟨⟨"ta", ⟨1, 0⟩, false, none⟩, "A", none⟩,
          ⟨⟨"tc", ⟨2, 0⟩, false, none⟩, "A", none⟩]).head? = some "g"
    ∧ Option.map ChainEntry.prevLinkHash
        ((renderChain "g" [⟨⟨"ta", ⟨1, 0⟩, false, none⟩, "A", none⟩,
          ⟨⟨"tc", ⟨2, 0⟩, false, none⟩, "A", none⟩])[0 + 1]?) =
        Option.map (fun t : TaggedTx => t.entry.txId)
          ([⟨⟨"ta", ⟨1, 0⟩, false, none⟩, "A", none⟩,
            ⟨⟨"tc", ⟨2, 0⟩, false, none⟩, "A", none⟩][0]?) :=
  ⟨(render_chain_assigns_links "g" _).1 (by decide),
   (render_chain_assigns_links "g" _).2.1 0 (by decide)⟩

/-- C2 counterexample: three records share one timestamp; the merged view
keeps asset `"A"` in delivered newest-first order (`"t2"` before the older
`"t1"`), not in the chronological (oldest-first) order the claim states,
and keeps asset `"B"` (listed first by the id query) before asset `"A"`,
not in lexical asset-id order. -/
theorem merge_tie_break_counterexample :
    (mergeLedger fetchesC2).map (fun t => (t.asset_id, t.entry.txId)) =
      [("B", "tb"), ("A", "t2"), ("A", "t1")]
    ∧ (mergeLedger fetchesC2).map sortKey = [10000000000, 10000000000, 10000000000]
    ∧ ([("B", "tb"), ("A", "t2"), ("A", "t1")] :
        List (String × String)) ≠ [("A", "t1"), ("A", "t2"), ("B", "tb")] := by
  refine ⟨by decide, by decide, by decide⟩

/-- C2 amended: the merged ledger view is a permutation of the pre-sort
concatenation (per-asset histories in delivered newest-first order, assets
in the order of the returned id list), and the sort is stable: any two
entries with equal timestamp keys keep the relative order they had in that
pre-sort concatenation. There is no lexical asset-id tie-break. -/
theorem merge_stable_pre_sort_order (fetches : List (String × Option (List HistoryEntry))) :
    (mergeLedger fetches).Perm (collectTxs fetches)
    ∧ ∀ a b : TaggedTx, sortKey a = sortKey b →
        List.Sublist [a, b] (collectTxs fetches) →
        List.Sublist [a, b] (mergeLedger fetches) := by
  constructor
  · exact List.perm_insertionSort txLe (collectTxs fetches)
  · intro a b hab h
    exact List.pair_sublist_insertionSort (le_of_eq hab) h

/-- Witness for C2 amended: the two equal-timestamp records of asset
`"A"` keep their pre-sort relative order in the merged output. -/
theorem merge_stable_pre_sort_order_witness :
    sortKey ⟨e2C2, "A", some "o1"⟩ = sortKey ⟨e1C2, "A", none⟩
    ∧ List.Sublist [⟨e2C2, "A", some "o1"⟩, ⟨e1C2, "A", none⟩] (collectTxs fetchesC2)
    ∧ List.Sublist [⟨e2C2, "A", some "o1"⟩, ⟨e1C2, "A", none⟩] (mergeLedger fetchesC2) :=
  ⟨by decide, by decide,
   (merge_stable_pre_sort_order fetchesC2).2 _ _ (by decide) (by decide)⟩

/-- C7 counterexample: the history fetch of asset `"A"` fails (the query
returns `None`); the loop collects no warning whatsoever — refuting the
claim that the failure is collected as a warning — while the merged output
still consists of the records of asset `"B"`. -/
theorem merge_failure_warning_counterexample :
    collectWarnings fetchesC7 = []
    ∧ (mergeLedger fetchesC7).map (fun t => t.asset_id) = ["B"] := by
  refine ⟨by decide, by decide⟩

/-- C7 amended: a failed per-asset history fetch does not abort the merge:
the asset is skipped silently (removing the failed fetches leaves the
collected list unchanged, and no warning is collected anywhere), and the
merged output still contains every tagged record of every asset whose
fetch succeeded with a non-empty id. -/
theorem merge_skips_failed_fetches (fetches : List (String × Option (List HistoryEntry))) :
    collectTxs fetches = collectTxs (fetches.filter fun p => p.2.isSome)
    ∧ collectWarnings fetches = []
    ∧ ∀ a h t, (a, some h) ∈ fetches → a ≠ "" → t ∈ tagHistory a h →
        t ∈ mergeLedger fetches := by
  refine ⟨?_, collectWarnings_eq_nil fetches, ?_⟩
  · induction fetches with
    | nil => rfl
    | cons p rest ih =>
      cases hp : p.2 with
      | none =>
        rw [List.filter_cons, collectTxs, List.flatMap_cons, perAsset_none p hp,
          List.nil_append]
        rw [collectTxs] at ih
        simpa [hp] using ih
      | some h =>
        rw [List.filter_cons, collectTxs, List.flatMap_cons]
        rw [collectTxs] at ih
        simp only [hp, Option.isSome_some, if_pos]
        rw [collectTxs, List.flatMap_cons]
        exact congrArg _ ih
  · intro a h t hmem ha ht
    have h1 : t ∈ collectTxs fetches := by
      rw [collectTxs]
      refine List.mem_flatMap.mpr ⟨(a, some h), hmem, ?_⟩
      rwa [perAsset_some a h ha]
    exact (List.perm_insertionSort txLe (collectTxs fetches)).mem_iff.mpr h1

/-- Witness for C7 amended: the tagged record of asset `"B"` is in the
merged output even though the fetch of asset `"A"` failed. -/
theorem merge_skips_failed_fetches_witness :
    ("B", some [ebC7]) ∈ fetchesC7
    ∧ ("B" : String) ≠ ""
    ∧ (⟨ebC7, "B", none⟩ : TaggedTx) ∈ tagHistory "B" [ebC7]
    ∧ (⟨ebC7, "B", none⟩ : TaggedTx) ∈ mergeLedger fetchesC7 :=
  ⟨by decide, by decide, by decide,
   (merge_skips_failed_fetches fetchesC7).2.2 "B" [ebC7] ⟨ebC7, "B", none⟩
     (by decide) (by decide) (by decide)⟩

/-- C8 counterexample: a command that succeeds with EMPTY stdout — which
`json.loads` cannot decode (it raises on the empty string) — is returned as the
plain success dictionary `{"success": True, "output": "", "error": ...}`,
not as a raw-marked result: the `if parse_json and result.stdout` guard is
falsy for the empty string. -/
theorem raw_fallback_counterexample :
    run_peer_command true (fun _ => (none : Option Unit)) (CmdOutcome.ok "" "boom") =
      RunResult.plainOk "" "boom"
    ∧ (run_peer_command true (fun _ => (none : Option Unit))
        (CmdOutcome.ok "" "boom")).isRaw = false := by
  refine ⟨by decide, by decide⟩

/-- C8 amended: for every gateway command that succeeds with NON-EMPTY
stdout that cannot be decoded as JSON, both `_run_peer_command` variants
return a success result carrying the raw stdout text, marked raw (they
neither throw nor report failure). -/
theorem raw_fallback_on_parse_failure {J : Type} (loads : String → Option J)
    (stdout stderr : String) (hne : stdout ≠ "") (hload : loads stdout = none) :
    run_peer_command true loads (CmdOutcome.ok stdout stderr) = RunResult.rawOk stdout
    ∧ wrapper_run_peer_command true loads (CmdOutcome.ok stdout stderr) =
        RunResult.rawOk stdout
    ∧ (run_peer_command true loads (CmdOutcome.ok stdout stderr)).success = true
    ∧ (run_peer_command true loads (CmdOutcome.ok stdout stderr)).isRaw = true := by
  simp [run_peer_command, wrapper_run_peer_command, hne, hload, RunResult.success,
    RunResult.isRaw]

/-- Witness for C8 amended: a concrete non-JSON payload. -/
theorem raw_fallback_on_parse_failure_witness :
    run_peer_command true (fun _ => (none : Option Unit)) (CmdOutcome.ok "oops" "e") =
      RunResult.rawOk "oops"
    ∧ wrapper_run_peer_command true (fun _ => (none : Option Unit))
        (CmdOutcome.ok "oops" "e") = RunResult.rawOk "oops"
    ∧ (run_peer_command true (fun _ => (none : Option Unit))
        (CmdOutcome.ok "oops" "e")).success = true
    ∧ (run_peer_command true (fun _ => (none : Option Unit))
        (CmdOutcome.ok "oops" "e")).isRaw = true :=
  raw_fallback_on_parse_failure (fun _ => (none : Option Unit)) "oops" "e" (by decide) rfl

/-- Environment for the C5 counterexample: fetch, tool, decode and JSON
parse all succeed, but the decoded block exposes neither the
channel-header timestamp nor `header.data_hash` (a field-extraction
failure). `b64hex` is instantiated with `some`; it is only applied to
`""`, where real Python agrees:
the hex of the decode of the empty string is the empty string. -/
def envFieldFail : GenesisEnv :=
  { fetchProducesBlock := true, toolExists := true, decodeSucceeds := true,
    decodeProducesOutput := true, parseResult := some { tsField := none, dataHash := none } }

/-- C5 counterexample: on a field-extraction failure the resolver does NOT
return the sentinel anchor: the hash is the empty string (not `"N/A"`), so
the rendering substitution does not kick in and the anchor used for
rendering is the empty string — length 0, not a 56-character all-zero
hash. -/
theorem genesis_field_extraction_counterexample :
    get_genesis_block (fun _ => "") (fun s => some s) envFieldFail =
      ({ timestamp := "Unknown Format", hash := "" },
       { blockExists := false, jsonExists := false })
    ∧ ledgerAnchorHash { timestamp := "Unknown Format", hash := "" } = ""
    ∧ (ledgerAnchorHash { timestamp := "Unknown Format", hash := "" }).length = 0 := by
  refine ⟨by decide, by decide, by decide⟩

/-- C5 amended: for every failure of genesis resolution among fetch
failure, missing decode tool, decode failure (including a decode that
produces no output file), and JSON parse failure, the resolver returns a
sentinel anchor rather than raising: its hash is `"N/A"` and its timestamp
is one of the short diagnostic strings; the anchor used for rendering is
then the 56-character all-zero placeholder, and chain rendering completes
without error using that anchor. (A field-extraction failure instead
yields the extracted fallback values — see the counterexample.) -/
theorem genesis_failure_sentinel (fmt : Int → String) (b64hex : String → Option String)
    (env : GenesisEnv)
    (hfail : env.fetchProducesBlock = false ∨ env.toolExists = false ∨
      env.decodeSucceeds = false ∨ env.decodeProducesOutput = false ∨
      env.parseResult = none) :
    (get_genesis_block fmt b64hex env).1.hash = "N/A"
    ∧ (get_genesis_block fmt b64hex env).1.timestamp ∈
        ["Fetch Failed", "Tool Missing", "Decode Failed", "No Output", "Parse Error"]
    ∧ ledgerAnchorHash (get_genesis_block fmt b64hex env).1 =
        String.mk (List.replicate 56 '0')
    ∧ (ledgerAnchorHash (get_genesis_block fmt b64hex env).1).length = 56
    ∧ (∀ c ∈ (ledgerAnchorHash (get_genesis_block fmt b64hex env).1).toList, c = '0')
    ∧ ∀ txs, (renderChain (ledgerAnchorHash (get_genesis_block fmt b64hex env).1) txs).map
        ChainEntry.tx = txs := by
  have key : (get_genesis_block fmt b64hex env).1.hash = "N/A"
      ∧ (get_genesis_block fmt b64hex env).1.timestamp ∈
        ["Fetch Failed", "Tool Missing", "Decode Failed", "No Output", "Parse Error"] := by
    rcases env with ⟨fb, te, ds, dpo, pr⟩
    rcases fb with _ | _
    · simp [get_genesis_block]
    · rcases te with _ | _
      · simp [get_genesis_block]
      · rcases ds with _ | _
        · simp [get_genesis_block]
        · rcases dpo with _ | _
          · simp [get_genesis_block]
          · rcases pr with _ | bd
            · simp [get_genesis_block]
            · simp at hfail
  obtain ⟨h1, h2⟩ := key
  have hz : ledgerAnchorHash (get_genesis_block fmt b64hex env).1 =
      String.mk (List.replicate 56 '0') := by
    simp [ledgerAnchorHash, h1]
  refine ⟨h1, h2, hz, by rw [hz]; decide, by rw [hz]; decide,
    fun txs => renderChain_map_tx _ txs⟩

/-- Witness for C5 amended: a fetch failure, rendered over a one-element
merged list. -/
theorem genesis_failure_sentinel_witness :
    (get_genesis_block (fun _ => "") (fun _ => none)
      { fetchProducesBlock := false, toolExists := true, decodeSucceeds := true,
        decodeProducesOutput := true, parseResult := none }).1.hash = "N/A"
    ∧ ledgerAnchorHash (get_genesis_block (fun _ => "") (fun _ => none)
        { fetchProducesBlock := false, toolExists := true, decodeSucceeds := true,
          decodeProducesOutput := true, parseResult := none }).1 =
        String.mk (List.replicate 56 '0')
    ∧ (renderChain (ledgerAnchorHash (get_genesis_block (fun _ => "") (fun _ => none)
        { fetchProducesBlock := false, toolExists := true, decodeSucceeds := true,
          decodeProducesOutput := true, parseResult := none }).1)
        [⟨ebC7, "B", none⟩]).map ChainEntry.tx = [⟨ebC7, "B", none⟩] :=
  ⟨(genesis_failure_sentinel _ _ _ (Or.inl rfl)).1,
   (genesis_failure_sentinel _ _ _ (Or.inl rfl)).2.2.1,
   (genesis_failure_sentinel _ _ _ (Or.inl rfl)).2.2.2.2.2 [⟨ebC7, "B", none⟩]⟩

/-- C6: evaluation at the failing input. When `peer channel fetch` writes
`genesis.block` but `configtxlator` is absent, `get_genesis_block` returns
the `Tool Missing` sentinel through the early return at lines 158-160,
which happens BEFORE the `os.remove(block_file)` at lines 171-172: the
temporary block file still exists when the call returns, contradicting the
claim (and the spec requirement) that both temporary files are removed on
every exit path. For contrast, the decode-failure path does clean up both
files. -/
theorem genesis_tool_missing_leaves_block :
    (get_genesis_block (fun _ => "") (fun _ => none)
      { fetchProducesBlock := true, toolExists := false, decodeSucceeds := true,
        decodeProducesOutput := true, parseResult := none }) =
      ({ timestamp := "Tool Missing", hash := "N/A" },
       { blockExists := true, jsonExists := false })
    ∧ (get_genesis_block (fun _ => "") (fun _ => none)
        { fetchProducesBlock := true, toolExists := true, decodeSucceeds := false,
          decodeProducesOutput := true, parseResult := none }).2 =
        { blockExists := false, jsonExists := false } := by
  refine ⟨by decide, by decide⟩

end ChainOfCustody
